import Mathlib

/-!
Verification of the MCP-PYDENTIC agent frontend task model.

Shallow embedding of the task-management code of the repository:
the TypeScript data model (src/MCP_SERVER/frontend/src/types/index.ts),
the task-list operations of the React task context
(src/MCP_SERVER/frontend/src/contexts/TaskContext.tsx), the chat submit
handler (ChatInterface, embedded in
src/MCP_SERVER/frontend/src/components/TaskStatusDisplay.tsx), the
dashboard statistics (src/MCP_SERVER/frontend/src/components/Dashboard.tsx)
and the date utilities (src/utils/dateUtils.ts, src/unnamed/part_004).

JavaScript numbers are modelled as integers (no claim depends on
fractional values); open `Record` maps are modelled as association
lists; the `any` payload of an action result is modelled by a
string-or-number value, which no claim inspects.
-/

namespace MCPAgent

/-- JavaScript `Date` (host-runtime value, external to the repository):
milliseconds since the epoch, with `none` standing for an Invalid Date
(internal time value NaN). -/
structure JSDate where
  time : Option Int
deriving DecidableEq

/-- JavaScript `new Date(string)` (ECMA-262 date parsing, host-runtime
behaviour external to the repository). The development relies only on
the fact that parsing the empty string yields an Invalid Date; a
nonempty string is mapped to a concrete stand-in instant (its byte
length), since no claim depends on the actual instant a nonempty
string denotes. -/
def jsDateParse (s : String) : JSDate :=
  if s = "" then ⟨none⟩ else ⟨some (Int.ofNat s.utf8ByteSize)⟩

/-- JavaScript comparison of two Dates (`a <= b`): false whenever either
side is an Invalid Date (NaN comparisons are false), otherwise integer
comparison of the time values. -/
def jsDateLe (a b : JSDate) : Bool :=
  match a.time, b.time with
  | some x, some y => decide (x ≤ y)
  | _, _ => false

/-- Open map (`Record<string, any>` in the source), modelled as an
association list; no claim inspects its contents. -/
abbrev OpenMap : Type := List (String × String)

/-- A `string | number` value (the `value` field of a browser action). -/
inductive JSValue where
  | str (s : String)
  | num (n : Int)
deriving DecidableEq

/-- `UserPrompt` from src/MCP_SERVER/frontend/src/types/index.ts. -/
structure UserPrompt where
  prompt : String
  priority : String
  timeout : Option Int
  metadata : Option OpenMap
deriving DecidableEq

/-- `TaskRequest` from src/MCP_SERVER/frontend/src/types/index.ts. -/
structure TaskRequest where
  id : String
  user_prompt : UserPrompt
  target_urls : List String
  expected_outputs : List String
  safety_preferences : Option OpenMap
  created_at : JSDate
deriving DecidableEq

/-- `ElementSelector` from src/MCP_SERVER/frontend/src/types/index.ts. -/
structure ElementSelector where
  type : String
  value : String
  description : Option String
deriving DecidableEq

/-- `BrowserAction` from src/MCP_SERVER/frontend/src/types/index.ts. -/
structure BrowserAction where
  id : String
  type : String
  element : Option ElementSelector
  value : Option JSValue
  description : Option String
  timeout : Option Int
  created_at : JSDate
  metadata : Option OpenMap
deriving DecidableEq

/-- `BrowserState` from src/MCP_SERVER/frontend/src/types/index.ts. -/
structure BrowserState where
  url : String
  title : String
  dom_content : String
  screenshot_path : Option String
  viewport_size : Option (Int × Int)
  page_info : Option OpenMap
  timestamp : JSDate
deriving DecidableEq

/-- `TaskExecutionPlan` from src/MCP_SERVER/frontend/src/types/index.ts. -/
structure TaskExecutionPlan where
  id : String
  task_id : String
  actions : List BrowserAction
  estimated_duration : Option Int
  created_at : JSDate
  status : String
  metadata : Option OpenMap
deriving DecidableEq

/-- `ActionResult` from src/MCP_SERVER/frontend/src/types/index.ts.
The `result` payload (`any` in the source) is modelled as an optional
string-or-number value; `dom_diff` as an optional open map. -/
structure ActionResult where
  action_id : String
  success : Bool
  result : Option JSValue
  error : Option String
  execution_time : Option Int
  screenshot_after : Option String
  dom_diff : Option OpenMap
  timestamp : JSDate
deriving DecidableEq

/-- `TaskResponse` from src/MCP_SERVER/frontend/src/types/index.ts. -/
structure TaskResponse where
  task_id : String
  status : String
  request : TaskRequest
  plan : Option TaskExecutionPlan
  results : List ActionResult
  final_state : Option BrowserState
  error : Option String
  started_at : Option JSDate
  completed_at : Option JSDate
  execution_time : Option Int
deriving DecidableEq

/-- `ApiUserPrompt` from src/MCP_SERVER/frontend/src/types/index.ts
(identical in shape to `UserPrompt`). -/
structure ApiUserPrompt where
  prompt : String
  priority : String
  timeout : Option Int
  metadata : Option OpenMap
deriving DecidableEq

/-- `ApiTaskRequest` from src/MCP_SERVER/frontend/src/types/index.ts:
like `TaskRequest` but `created_at` is an ISO date string. -/
structure ApiTaskRequest where
  id : String
  user_prompt : ApiUserPrompt
  target_urls : List String
  expected_outputs : List String
  safety_preferences : Option OpenMap
  created_at : String
deriving DecidableEq

/-- `ApiBrowserAction` from src/MCP_SERVER/frontend/src/types/index.ts:
like `BrowserAction` but `created_at` is an ISO date string. -/
structure ApiBrowserAction where
  id : String
  type : String
  element : Option ElementSelector
  value : Option JSValue
  description : Option String
  timeout : Option Int
  created_at : String
  metadata : Option OpenMap
deriving DecidableEq

/-- `ApiBrowserState` from src/MCP_SERVER/frontend/src/types/index.ts:
like `BrowserState` but `timestamp` is an ISO date string. -/
structure ApiBrowserState where
  url : String
  title : String
  dom_content : String
  screenshot_path : Option String
  viewport_size : Option (Int × Int)
  page_info : Option OpenMap
  timestamp : String
deriving DecidableEq

/-- `ApiTaskExecutionPlan` from src/MCP_SERVER/frontend/src/types/index.ts. -/
structure ApiTaskExecutionPlan where
  id : String
  task_id : String
  actions : List ApiBrowserAction
  estimated_duration : Option Int
  created_at : String
  status : String
  metadata : Option OpenMap
deriving DecidableEq

/-- `ApiActionResult` from src/MCP_SERVER/frontend/src/types/index.ts:
like `ActionResult` but `timestamp` is an ISO date string. -/
structure ApiActionResult where
  action_id : String
  success : Bool
  result : Option JSValue
  error : Option String
  execution_time : Option Int
  screenshot_after : Option String
  dom_diff : Option OpenMap
  timestamp : String
deriving DecidableEq

/-- `ApiTaskResponse` from src/MCP_SERVER/frontend/src/types/index.ts:
`started_at` and `completed_at` are optional ISO date strings. -/
structure ApiTaskResponse where
  task_id : String
  status : String
  request : ApiTaskRequest
  plan : Option ApiTaskExecutionPlan
  results : List ApiActionResult
  final_state : Option ApiBrowserState
  error : Option String
  started_at : Option String
  completed_at : Option String
  execution_time : Option Int
deriving DecidableEq

/-- `convertApiTaskRequest` from
src/MCP_SERVER/frontend/src/types/index.ts. -/
def convertApiTaskRequest (apiRequest : ApiTaskRequest) : TaskRequest :=
  { id := apiRequest.id
    user_prompt :=
      { prompt := apiRequest.user_prompt.prompt
        priority := apiRequest.user_prompt.priority
        timeout := apiRequest.user_prompt.timeout
        metadata := apiRequest.user_prompt.metadata }
    target_urls := apiRequest.target_urls
    expected_outputs := apiRequest.expected_outputs
    safety_preferences := apiRequest.safety_preferences
    created_at := jsDateParse apiRequest.created_at }

/-- `convertApiBrowserAction` from
src/MCP_SERVER/frontend/src/types/index.ts. -/
def convertApiBrowserAction (apiAction : ApiBrowserAction) : BrowserAction :=
  { id := apiAction.id
    type := apiAction.type
    element := apiAction.element
    value := apiAction.value
    description := apiAction.description
    timeout := apiAction.timeout
    created_at := jsDateParse apiAction.created_at
    metadata := apiAction.metadata }

/-- `convertApiTaskExecutionPlan` from
src/MCP_SERVER/frontend/src/types/index.ts. -/
def convertApiTaskExecutionPlan (apiPlan : ApiTaskExecutionPlan) :
    TaskExecutionPlan :=
  { id := apiPlan.id
    task_id := apiPlan.task_id
    actions := apiPlan.actions.map (fun action => convertApiBrowserAction action)
    estimated_duration := apiPlan.estimated_duration
    created_at := jsDateParse apiPlan.created_at
    status := apiPlan.status
    metadata := apiPlan.metadata }

/-- `convertApiActionResult` from
src/MCP_SERVER/frontend/src/types/index.ts. -/
def convertApiActionResult (apiResult : ApiActionResult) : ActionResult :=
  { action_id := apiResult.action_id
    success := apiResult.success
    result := apiResult.result
    error := apiResult.error
    execution_time := apiResult.execution_time
    screenshot_after := apiResult.screenshot_after
    dom_diff := apiResult.dom_diff
    timestamp := jsDateParse apiResult.timestamp }

/-- `convertApiBrowserState` from
src/MCP_SERVER/frontend/src/types/index.ts. -/
def convertApiBrowserState (apiState : ApiBrowserState) : BrowserState :=
  { url := apiState.url
    title := apiState.title
    dom_content := apiState.dom_content
    screenshot_path := apiState.screenshot_path
    viewport_size := apiState.viewport_size
    page_info := apiState.page_info
    timestamp := jsDateParse apiState.timestamp }

/-- JavaScript truthiness of the conditional
`apiResponse.started_at ? new Date(apiResponse.started_at) : undefined`
used by `convertApiTaskResponse`: an absent field and the empty string
are both falsy and yield `undefined`. -/
def convertOptDate (o : Option String) : Option JSDate :=
  match o with
  | none => none
  | some s => if s = "" then none else some (jsDateParse s)

/-- `convertApiTaskResponse` from
src/MCP_SERVER/frontend/src/types/index.ts. -/
def convertApiTaskResponse (apiResponse : ApiTaskResponse) : TaskResponse :=
  { task_id := apiResponse.task_id
    status := apiResponse.status
    request := convertApiTaskRequest apiResponse.request
    plan := apiResponse.plan.map (fun p => convertApiTaskExecutionPlan p)
    results := apiResponse.results.map (fun result => convertApiActionResult result)
    final_state := apiResponse.final_state.map (fun s => convertApiBrowserState s)
    error := apiResponse.error
    started_at := convertOptDate apiResponse.started_at
    completed_at := convertOptDate apiResponse.completed_at
    execution_time := apiResponse.execution_time }

/-- `addTask` from src/MCP_SERVER/frontend/src/contexts/TaskContext.tsx
(lines 50-52): `setTasks(prev => [...prev, task])`, appending the new
task at the end of the list. -/
def addTask (task : TaskResponse) (prev : List TaskResponse) :
    List TaskResponse :=
  prev ++ [task]

/-- `updateTask` from src/MCP_SERVER/frontend/src/contexts/TaskContext.tsx
(lines 54-59), the list part: replace every entry whose `task_id`
equals the incoming task's by the incoming task; entries with a
different id are returned unchanged. It never inserts. -/
def updateTask (updatedTask : TaskResponse) (prev : List TaskResponse) :
    List TaskResponse :=
  prev.map (fun task =>
    if task.task_id = updatedTask.task_id then updatedTask else task)

/-- `updateTask` from src/MCP_SERVER/frontend/src/contexts/TaskContext.tsx
(lines 61-64), the active-task part: the active task is replaced by the
incoming task exactly when it exists and carries the same `task_id`. -/
def updateActiveTask (updatedTask : TaskResponse)
    (activeTask : Option TaskResponse) : Option TaskResponse :=
  match activeTask with
  | some a =>
      if a.task_id = updatedTask.task_id then some updatedTask else some a
  | none => none

/-- The upsert variant of `updateTask` embedded in
src/MCP_SERVER/frontend/src/types/index.ts (lines 458-478): when an
entry with the incoming id exists it is replaced in place, otherwise
the incoming task is PREPENDED to the list. -/
def updateTaskUpsert (updatedTask : TaskResponse)
    (prev : List TaskResponse) : List TaskResponse :=
  if prev.any (fun task => task.task_id == updatedTask.task_id) then
    prev.map (fun task =>
      if task.task_id = updatedTask.task_id then updatedTask else task)
  else
    updatedTask :: prev

/-- The task object built by `handleSubmit` of ChatInterface
(src/MCP_SERVER/frontend/src/components/TaskStatusDisplay.tsx,
embedded ChatInterface.tsx lines 238-255): a fresh task in status
`processing` with `started_at = new Date()`, an `execution_time` of 0
and no `completed_at`. `nowMs` stands for the current clock reading
used by `Date.now()` and `new Date()`. -/
def chatNewTask (nowMs : Int) (input : String) : TaskResponse :=
  { task_id := "task_" ++ toString nowMs
    status := "processing"
    request :=
      { id := "req_" ++ toString nowMs
        user_prompt :=
          { prompt := input
            priority := "normal"
            timeout := some 300
            metadata := none }
        target_urls := []
        expected_outputs := []
        safety_preferences := none
        created_at := ⟨some nowMs⟩ }
    plan := none
    results := []
    final_state := none
    error := none
    started_at := some ⟨some nowMs⟩
    completed_at := none
    execution_time := some 0 }

/-- JavaScript `String.prototype.trim` (host-runtime behaviour,
external to the repository): strip leading and trailing whitespace. -/
def jsTrim (s : String) : String :=
  String.mk (((s.toList.dropWhile Char.isWhitespace).reverse.dropWhile
    Char.isWhitespace).reverse)

/-- `handleSubmit` of ChatInterface
(src/MCP_SERVER/frontend/src/components/TaskStatusDisplay.tsx,
embedded ChatInterface.tsx lines 230-258), as a function of the task
list: the guard `if (!input.trim() || isLoading) return` leaves the
list untouched (the empty string is falsy, so a blank or
whitespace-only input is rejected synchronously); otherwise the newly
built task is added via `addTask`. -/
def handleSubmit (nowMs : Int) (isLoading : Bool) (input : String)
    (tasks : List TaskResponse) : List TaskResponse :=
  if jsTrim input = "" || isLoading then tasks
  else addTask (chatNewTask nowMs input) tasks

/-- `completedTasks` of Dashboard
(src/MCP_SERVER/frontend/src/components/Dashboard.tsx line 26):
the number of tasks whose status is completed. -/
def completedCount (tasks : List TaskResponse) : Nat :=
  (tasks.filter (fun t => t.status == "completed")).length

/-- `successRate` of Dashboard
(src/MCP_SERVER/frontend/src/components/Dashboard.tsx line 28):
`totalTasks > 0 ? Math.round((completedTasks / totalTasks) * 100) : 0`,
with the arithmetic carried out exactly over the rationals
(`Math.round` rounds half up, as Mathlib's `round` does). -/
def successRate (tasks : List TaskResponse) : Int :=
  if 0 < tasks.length then
    round (((completedCount tasks : ℚ) / (tasks.length : ℚ)) * 100)
  else 0

/-- The argument of `parseAPIDate` (src/utils/dateUtils.ts, in
src/unnamed/part_004): a value of type `string | Date | undefined`. -/
inductive APIDateInput where
  | undef
  | str (s : String)
  | date (d : JSDate)
deriving DecidableEq

/-- `parseAPIDate` from src/utils/dateUtils.ts (src/unnamed/part_004
lines 4-8). The first guard `if (!dateString) return new Date()` fires
on every falsy argument: both `undefined` AND the empty string, which
therefore yield the current time `now` rather than a parsed date; a
`Date` argument (always truthy) is returned unchanged; any other
string is parsed with `new Date(string)`. Total by construction. -/
def parseAPIDate (now : JSDate) : APIDateInput → JSDate
  | .undef => now
  | .str s => if s = "" then now else jsDateParse s
  | .date d => d

/-- One call against the task context of TaskContext.tsx: either
`addTask` or `updateTask`. -/
inductive TaskOp where
  | add (t : TaskResponse)
  | update (t : TaskResponse)

/-- Apply one task-context call to the current task list. -/
def applyTaskOp (l : List TaskResponse) : TaskOp → List TaskResponse
  | .add t => addTask t l
  | .update t => updateTask t l

/-- Run a sequence of task-context calls starting from the initial
empty list of TaskProvider. -/
def runTaskOps (ops : List TaskOp) : List TaskResponse :=
  ops.foldl applyTaskOp []

/-- The ids of the tasks passed to `addTask`, in call order. -/
def addedIds (ops : List TaskOp) : List String :=
  ops.filterMap (fun op =>
    match op with
    | .add t => some t.task_id
    | .update _ => none)

/-- Modelled from the spec: the Task Orchestrator's task statuses
(spec section 3). The orchestrator itself is backend code of this
repository that is not under src/ (only the frontend is); its state
machine is modelled from the spec's words. -/
inductive OrchTaskStatus where
  | pending
  | processing
  | executing
  | completed
  | failed
  | cancelled
deriving DecidableEq

/-- Modelled from the spec: a status is terminal when it is
`completed`, `failed` or `cancelled` (spec invariant 2). -/
def isTerminal : OrchTaskStatus → Bool
  | .completed => true
  | .failed => true
  | .cancelled => true
  | _ => false

/-- Modelled from the spec: the Task Orchestrator's
`cancel(task_id) -> bool` (spec section 4.1) on the addressed task's
status — "it marks the Task `cancelled` ... A Task already terminal is
a no-op returning `false`". Returns the boolean result together with
the task's status afterwards. -/
def orchCancel (s : OrchTaskStatus) : Bool × OrchTaskStatus :=
  if isTerminal s then (false, s) else (true, .cancelled)

/-- A minimal task value used to instantiate witnesses. -/
def mkTask (id status : String) : TaskResponse :=
  { task_id := id
    status := status
    request :=
      { id := id
        user_prompt :=
          { prompt := "p", priority := "normal", timeout := none,
            metadata := none }
        target_urls := []
        expected_outputs := []
        safety_preferences := none
        created_at := ⟨some 0⟩ }
    plan := none
    results := []
    final_state := none
    error := none
    started_at := none
    completed_at := none
    execution_time := none }

lemma mem_updateTask_eq_of_id {t y : TaskResponse} {l : List TaskResponse}
    (hy : y ∈ updateTask t l) (hid : y.task_id = t.task_id) : y = t := by
  unfold updateTask at hy
  obtain ⟨x, _, hfx⟩ := List.mem_map.mp hy
  by_cases h : x.task_id = t.task_id
  · rw [if_pos h] at hfx
    exact hfx.symm
  · rw [if_neg h] at hfx
    exact absurd (hfx ▸ hid) h

/-- C3: updateTask stores the published full snapshot wholesale: in any
run on a prior list containing the id, the entry found for that id
afterwards is the incoming task itself, independent of the previous
entry; two runs on different prior lists agree on it. -/
theorem updateTask_wholesale_replacement :
    ∀ (t y₁ y₂ : TaskResponse) (l₁ l₂ : List TaskResponse),
      (∃ x ∈ l₁, x.task_id = t.task_id) →
      (∃ x ∈ l₂, x.task_id = t.task_id) →
      y₁ ∈ updateTask t l₁ → y₁.task_id = t.task_id →
      y₂ ∈ updateTask t l₂ → y₂.task_id = t.task_id →
      y₁ = t ∧ y₂ = t := by
  intro t y₁ y₂ l₁ l₂ _ _ hy₁ hid₁ hy₂ hid₂
  exact ⟨mem_updateTask_eq_of_id hy₁ hid₁, mem_updateTask_eq_of_id hy₂ hid₂⟩

theorem updateTask_wholesale_replacement_witness :
    (∃ x ∈ [mkTask "a" "pending"],
        x.task_id = (mkTask "a" "completed").task_id) ∧
    (∃ x ∈ [mkTask "c" "failed", mkTask "a" "executing"],
        x.task_id = (mkTask "a" "completed").task_id) ∧
    mkTask "a" "completed" ∈
      updateTask (mkTask "a" "completed") [mkTask "a" "pending"] ∧
    mkTask "a" "completed" ∈
      updateTask (mkTask "a" "completed")
        [mkTask "c" "failed", mkTask "a" "executing"] ∧
    mkTask "a" "completed" = mkTask "a" "completed" :=
  ⟨⟨mkTask "a" "pending", by decide⟩,
   ⟨mkTask "a" "executing", by decide⟩,
   by decide, by decide,
   (updateTask_wholesale_replacement (mkTask "a" "completed")
      (mkTask "a" "completed") (mkTask "a" "completed")
      [mkTask "a" "pending"] [mkTask "c" "failed", mkTask "a" "executing"]
      ⟨mkTask "a" "pending", by decide⟩
      ⟨mkTask "a" "executing", by decide⟩
      (by decide) (by decide) (by decide) (by decide)).1⟩

/-- C8: updateTask is frame-preserving: the list keeps its length, any
position holding a task with a different id is untouched, and the
active task is replaced exactly when its id matches (a missing active
task stays missing). -/
theorem updateTask_frame :
    ∀ (t : TaskResponse) (l : List TaskResponse),
      (updateTask t l).length = l.length ∧
      (∀ (i : Nat) (x : TaskResponse), l[i]? = some x →
        x.task_id ≠ t.task_id → (updateTask t l)[i]? = some x) ∧
      (∀ a : TaskResponse, a.task_id = t.task_id →
        updateActiveTask t (some a) = some t) ∧
      (∀ a : TaskResponse, a.task_id ≠ t.task_id →
        updateActiveTask t (some a) = some a) ∧
      updateActiveTask t none = none := by
  intro t l
  refine ⟨List.length_map _ _, ?_, ?_, ?_, rfl⟩
  · intro i x hx hne
    unfold updateTask
    rw [List.getElem?_map, hx]
    simp [hne]
  · intro a ha
    simp [updateActiveTask, ha]
  · intro a ha
    simp [updateActiveTask, ha]

theorem updateTask_frame_witness :
    (updateTask (mkTask "a" "completed") [mkTask "b" "pending"]).length =
      [mkTask "b" "pending"].length ∧
    (updateTask (mkTask "a" "completed") [mkTask "b" "pending"])[0]? =
      some (mkTask "b" "pending") ∧
    updateActiveTask (mkTask "a" "completed") (some (mkTask "a" "pending")) =
      some (mkTask "a" "completed") ∧
    updateActiveTask (mkTask "a" "completed") (some (mkTask "b" "pending")) =
      some (mkTask "b" "pending") ∧
    updateActiveTask (mkTask "a" "completed") none = none :=
  ⟨(updateTask_frame (mkTask "a" "completed") [mkTask "b" "pending"]).1,
   (updateTask_frame (mkTask "a" "completed") [mkTask "b" "pending"]).2.1
     0 (mkTask "b" "pending") rfl (by decide),
   (updateTask_frame (mkTask "a" "completed") [mkTask "b" "pending"]).2.2.1
     (mkTask "a" "pending") (by decide),
   (updateTask_frame (mkTask "a" "completed") [mkTask "b" "pending"]).2.2.2.1
     (mkTask "b" "pending") (by decide),
   (updateTask_frame (mkTask "a" "completed") [mkTask "b" "pending"]).2.2.2.2⟩

/-- C5: the task built by the chat submit handler violates the
execution-time invariant for every clock reading and every prompt: it
carries a present execution_time of 0 while completed_at is absent
(and the task is still in status processing), so a present
execution_time does not imply both endpoints are set, let alone equal
their span. -/
theorem chatNewTask_execution_time_invariant_violated :
    ∀ (nowMs : Int) (input : String),
      (chatNewTask nowMs input).execution_time = some 0 ∧
      (chatNewTask nowMs input).completed_at = none ∧
      (chatNewTask nowMs input).status = "processing" := by
  intro nowMs input
  exact ⟨rfl, rfl, rfl⟩

/-- C6: a prompt that is empty or all whitespace creates no task: the
submit handler's synchronous guard returns before anything is added,
leaving the task list unchanged. -/
theorem handleSubmit_blank_input_no_task :
    ∀ (nowMs : Int) (isLoading : Bool) (input : String)
      (tasks : List TaskResponse),
      jsTrim input = "" → handleSubmit nowMs isLoading input tasks = tasks := by
  intro nowMs isLoading input tasks h
  simp [handleSubmit, h]

theorem handleSubmit_blank_input_no_task_witness :
    jsTrim " \t  " = "" ∧ handleSubmit 0 false " \t  " [] = [] :=
  ⟨by decide, handleSubmit_blank_input_no_task 0 false " \t  " [] (by decide)⟩

/-- C7: cancel yields true exactly once on a live task and false on
every later call, and on a task already terminal it is a no-op
returning false (spec-modelled orchestrator). -/
theorem orchCancel_idempotent :
    ∀ s : OrchTaskStatus,
      (isTerminal s = false →
        (orchCancel s).1 = true ∧
        orchCancel (orchCancel s).2 = (false, OrchTaskStatus.cancelled)) ∧
      (isTerminal s = true → orchCancel s = (false, s)) := by
  intro s
  constructor
  · intro h
    unfold orchCancel
    rw [h]
    exact ⟨rfl, rfl⟩
  · intro h
    unfold orchCancel
    rw [h]
    rfl

theorem orchCancel_idempotent_witness :
    ((orchCancel OrchTaskStatus.executing).1 = true ∧
      orchCancel (orchCancel OrchTaskStatus.executing).2 =
        (false, OrchTaskStatus.cancelled)) ∧
    orchCancel OrchTaskStatus.completed = (false, OrchTaskStatus.completed) :=
  ⟨(orchCancel_idempotent OrchTaskStatus.executing).1 rfl,
   (orchCancel_idempotent OrchTaskStatus.completed).2 rfl⟩

/-- C10: counterexample — parseAPIDate applied to the string input
consisting of the empty string returns the current time, not the
result of new Date of that string (an Invalid Date), so the claim
that every string input is parsed with new Date fails. -/
theorem parseAPIDate_empty_string_counterexample :
    parseAPIDate ⟨some 0⟩ (APIDateInput.str "") = ⟨some 0⟩ ∧
    jsDateParse "" = ⟨none⟩ ∧
    parseAPIDate ⟨some 0⟩ (APIDateInput.str "") ≠ jsDateParse "" :=
  ⟨rfl, rfl, by decide⟩

/-- C10 (amended): parseAPIDate is total and never throws; an
undefined input — and, because the empty string is also falsy, an
empty-string input — returns the current time; a nonempty string is
parsed with new Date; a Date input is returned unchanged, so the
function is idempotent on Dates. -/
theorem parseAPIDate_total_amended :
    ∀ (now : JSDate) (s : String) (d : JSDate),
      parseAPIDate now APIDateInput.undef = now ∧
      (s = "" → parseAPIDate now (APIDateInput.str s) = now) ∧
      (s ≠ "" → parseAPIDate now (APIDateInput.str s) = jsDateParse s) ∧
      parseAPIDate now (APIDateInput.date d) = d := by
  intro now s d
  refine ⟨rfl, ?_, ?_, rfl⟩
  · intro h
    simp [parseAPIDate, h]
  · intro h
    simp [parseAPIDate, h]

theorem parseAPIDate_total_amended_witness :
    parseAPIDate ⟨some 5⟩ APIDateInput.undef = ⟨some 5⟩ ∧
    parseAPIDate ⟨some 5⟩ (APIDateInput.str "") = ⟨some 5⟩ ∧
    parseAPIDate ⟨some 5⟩ (APIDateInput.str "2024-01-01") =
      jsDateParse "2024-01-01" ∧
    parseAPIDate ⟨some 5⟩ (APIDateInput.date ⟨some 7⟩) = ⟨some 7⟩ :=
  ⟨(parseAPIDate_total_amended ⟨some 5⟩ "" ⟨some 7⟩).1,
   (parseAPIDate_total_amended ⟨some 5⟩ "" ⟨some 7⟩).2.1 rfl,
   (parseAPIDate_total_amended ⟨some 5⟩ "2024-01-01" ⟨some 7⟩).2.2.1
     (by decide),
   (parseAPIDate_total_amended ⟨some 5⟩ "2024-01-01" ⟨some 7⟩).2.2.2⟩

lemma updateTask_filter_matching (t : TaskResponse) (l : List TaskResponse) :
    (updateTask t l).filter (fun y => y.task_id == t.task_id) =
      ((l.filter (fun y => y.task_id == t.task_id)).map
        (fun y => if y.task_id = t.task_id then t else y)) := by
  unfold updateTask
  rw [List.filter_map]
  congr 1
  apply List.filter_congr
  intro a _
  by_cases h : a.task_id = t.task_id <;> simp [h]

/-- C1: counterexample — a task_update for a task that is not in the
list is dropped by the subscriber-side updateTask of TaskContext.tsx:
on the empty prior list the result is still empty, so the list does
not contain exactly one entry with the incoming id. -/
theorem updateTask_no_insert_counterexample :
    updateTask (mkTask "a" "completed") [] = [] ∧
    ¬ (((updateTask (mkTask "a" "completed") []).filter
        (fun y => y.task_id == (mkTask "a" "completed").task_id)).length = 1) :=
  ⟨rfl, by decide⟩

/-- C1 (amended): after the subscriber-side updateTask of
TaskContext.tsx completes, the guarantee holds only for ids already
present: if the prior list contained exactly one entry with the
incoming id, the list afterwards contains exactly one entry with that
id and that entry equals the incoming task; if no entry with that id
was present, the list is unchanged — this updateTask never inserts
(the upsert variant embedded in types/index.ts would prepend instead). -/
theorem updateTask_replaces_present_amended :
    ∀ (t : TaskResponse) (l : List TaskResponse),
      ((l.filter (fun y => y.task_id == t.task_id)).length = 1 →
        (updateTask t l).filter (fun y => y.task_id == t.task_id) = [t]) ∧
      (l.filter (fun y => y.task_id == t.task_id) = [] →
        updateTask t l = l) := by
  intro t l
  constructor
  · intro h
    obtain ⟨a, ha⟩ := List.length_eq_one.mp h
    have hmem : a ∈ l.filter (fun y => y.task_id == t.task_id) := by
      rw [ha]
      exact List.mem_singleton_self a
    have hid : a.task_id = t.task_id := by
      have := (List.mem_filter.mp hmem).2
      simpa using this
    rw [updateTask_filter_matching, ha]
    simp [hid]
  · intro h
    have hnone := List.filter_eq_nil_iff.mp h
    unfold updateTask
    have : ∀ a ∈ l,
        (if a.task_id = t.task_id then t else a) = id a := by
      intro a ha
      have hne : a.task_id ≠ t.task_id := by simpa using hnone a ha
      simp [hne]
    rw [List.map_congr_left this, List.map_id]

theorem updateTask_replaces_present_amended_witness :
    (([mkTask "a" "pending", mkTask "b" "pending"].filter
        (fun y => y.task_id == (mkTask "a" "completed").task_id)).length = 1) ∧
    (updateTask (mkTask "a" "completed")
        [mkTask "a" "pending", mkTask "b" "pending"]).filter
        (fun y => y.task_id == (mkTask "a" "completed").task_id) =
      [mkTask "a" "completed"] ∧
    ([mkTask "b" "pending"].filter
        (fun y => y.task_id == (mkTask "a" "completed").task_id) = []) ∧
    updateTask (mkTask "a" "completed") [mkTask "b" "pending"] =
      [mkTask "b" "pending"] :=
  ⟨by decide,
   (updateTask_replaces_present_amended (mkTask "a" "completed")
      [mkTask "a" "pending", mkTask "b" "pending"]).1 (by decide),
   by decide,
   (updateTask_replaces_present_amended (mkTask "a" "completed")
      [mkTask "b" "pending"]).2 (by decide)⟩

lemma updateTask_map_task_id (t : TaskResponse) (l : List TaskResponse) :
    (updateTask t l).map (fun x => x.task_id) =
      l.map (fun x => x.task_id) := by
  unfold updateTask
  rw [List.map_map]
  apply List.map_congr_left
  intro a _
  by_cases h : a.task_id = t.task_id <;> simp [Function.comp, h]

lemma foldl_taskOps_map_id (ops : List TaskOp) :
    ∀ l : List TaskResponse,
      (ops.foldl applyTaskOp l).map (fun x => x.task_id) =
        l.map (fun x => x.task_id) ++ addedIds ops := by
  induction ops with
  | nil =>
      intro l
      simp [addedIds]
  | cons op ops ih =>
      intro l
      cases op with
      | add t =>
          simp only [List.foldl_cons, applyTaskOp, addTask]
          rw [ih (l ++ [t])]
          simp [addedIds, List.filterMap_cons]
      | update t =>
          simp only [List.foldl_cons, applyTaskOp]
          rw [ih (updateTask t l), updateTask_map_task_id]
          simp [addedIds, List.filterMap_cons]

/-- C2: the task list is kept in insertion order: addTask appends at
the end, updateTask preserves the sequence of ids at their positions,
and hence any run of addTask and updateTask calls starting from the
empty list yields a list whose ids are exactly the ids passed to
addTask, in the order they were first added. -/
theorem taskList_insertion_order :
    (∀ (t : TaskResponse) (l : List TaskResponse), addTask t l = l ++ [t]) ∧
    (∀ (t : TaskResponse) (l : List TaskResponse),
      (updateTask t l).map (fun x => x.task_id) =
        l.map (fun x => x.task_id)) ∧
    (∀ ops : List TaskOp,
      (runTaskOps ops).map (fun x => x.task_id) = addedIds ops) := by
  refine ⟨fun t l => rfl, updateTask_map_task_id, ?_⟩
  intro ops
  unfold runTaskOps
  rw [foldl_taskOps_map_id ops []]
  rfl

/-- The ordering of action results by their JavaScript timestamps
(monotone, nondecreasing adjacent pairs); a list is prefix-closed by
construction, so this captures the spec's monotonic, prefix-closed
results ordering. -/
def resultsChronological (rs : List ActionResult) : Prop :=
  List.Chain' (fun a b => jsDateLe a.timestamp b.timestamp = true) rs

/-- The same ordering on raw API results, comparing the instants their
ISO timestamp strings denote. -/
def apiResultsChronological (rs : List ApiActionResult) : Prop :=
  List.Chain' (fun a b =>
    jsDateLe (jsDateParse a.timestamp) (jsDateParse b.timestamp) = true) rs

/-- C4: convertApiTaskResponse is structure-preserving — task_id,
status, error and execution_time are kept, the results list has the
same length with entry i the conversion of entry i, each converted
result keeps action_id, success, error and execution_time and carries
the Date parsed from its API timestamp, and a monotonic (prefix-closed)
API results list converts to a monotonic results list. -/
theorem convertApiTaskResponse_structure_preserving :
    ∀ r : ApiTaskResponse,
      (convertApiTaskResponse r).task_id = r.task_id ∧
      (convertApiTaskResponse r).status = r.status ∧
      (convertApiTaskResponse r).error = r.error ∧
      (convertApiTaskResponse r).execution_time = r.execution_time ∧
      (convertApiTaskResponse r).results.length = r.results.length ∧
      (∀ (i : Nat) (a : ApiActionResult), r.results[i]? = some a →
        (convertApiTaskResponse r).results[i]? =
          some (convertApiActionResult a)) ∧
      (∀ a : ApiActionResult,
        (convertApiActionResult a).action_id = a.action_id ∧
        (convertApiActionResult a).success = a.success ∧
        (convertApiActionResult a).error = a.error ∧
        (convertApiActionResult a).execution_time = a.execution_time ∧
        (convertApiActionResult a).timestamp = jsDateParse a.timestamp) ∧
      (apiResultsChronological r.results →
        resultsChronological (convertApiTaskResponse r).results) := by
  intro r
  refine ⟨rfl, rfl, rfl, rfl, List.length_map _ _, ?_, ?_, ?_⟩
  · intro i a ha
    show (r.results.map (fun result => convertApiActionResult result))[i]? = _
    rw [List.getElem?_map, ha]
    rfl
  · intro a
    exact ⟨rfl, rfl, rfl, rfl, rfl⟩
  · intro h
    unfold resultsChronological
    show List.Chain' _ (r.results.map (fun result => convertApiActionResult result))
    rw [List.chain'_map]
    exact h

/-- A minimal API action result used to instantiate the C4 witness. -/
def mkApiResult (aid ts : String) : ApiActionResult :=
  { action_id := aid
    success := true
    result := none
    error := none
    execution_time := none
    screenshot_after := none
    dom_diff := none
    timestamp := ts }

/-- A small concrete API response with two chronologically ordered
results, used to instantiate the C4 witness. -/
def sampleApiResponse : ApiTaskResponse :=
  { task_id := "t"
    status := "completed"
    request :=
      { id := "r"
        user_prompt :=
          { prompt := "p", priority := "normal", timeout := none,
            metadata := none }
        target_urls := []
        expected_outputs := []
        safety_preferences := none
        created_at := "2024-01-01" }
    plan := none
    results := [mkApiResult "a1" "x", mkApiResult "a2" "yy"]
    final_state := none
    error := none
    started_at := none
    completed_at := none
    execution_time := some 5 }

theorem convertApiTaskResponse_structure_preserving_witness :
    (convertApiTaskResponse sampleApiResponse).task_id =
      sampleApiResponse.task_id ∧
    sampleApiResponse.results[0]? = some (mkApiResult "a1" "x") ∧
    (convertApiTaskResponse sampleApiResponse).results[0]? =
      some (convertApiActionResult (mkApiResult "a1" "x")) ∧
    apiResultsChronological sampleApiResponse.results ∧
    resultsChronological (convertApiTaskResponse sampleApiResponse).results :=
  ⟨(convertApiTaskResponse_structure_preserving sampleApiResponse).1,
   rfl,
   (convertApiTaskResponse_structure_preserving
      sampleApiResponse).2.2.2.2.2.1 0 (mkApiResult "a1" "x") rfl,
   by
     show List.Chain' _ [mkApiResult "a1" "x", mkApiResult "a2" "yy"]
     rw [List.chain'_pair]
     decide,
   (convertApiTaskResponse_structure_preserving
      sampleApiResponse).2.2.2.2.2.2.2
     (by
       show List.Chain' _ [mkApiResult "a1" "x", mkApiResult "a2" "yy"]
       rw [List.chain'_pair]
       decide)⟩

/-- C9: the dashboard success rate guards the zero-denominator case:
on a nonempty task list it is the rounded percentage of completed
tasks, on an empty list it is 0, and it always lies between 0 and 100
(no division by zero can occur, since the division is only evaluated
under the positivity guard). -/
theorem successRate_guarded_and_bounded :
    ∀ tasks : List TaskResponse,
      (0 < tasks.length → successRate tasks =
        round ((100 * (completedCount tasks : ℚ)) / (tasks.length : ℚ))) ∧
      (tasks = [] → successRate tasks = 0) ∧
      0 ≤ successRate tasks ∧ successRate tasks ≤ 100 := by
  intro tasks
  refine ⟨?_, ?_, ?_⟩
  · intro h
    unfold successRate
    rw [if_pos h]
    congr 1
    ring
  · intro h
    subst h
    simp [successRate]
  · by_cases h : 0 < tasks.length
    · have hct : completedCount tasks ≤ tasks.length :=
        List.length_filter_le _ _
      have ht : (0:ℚ) < (tasks.length : ℚ) := by exact_mod_cast h
      have hcq : (completedCount tasks : ℚ) ≤ (tasks.length : ℚ) := by
        exact_mod_cast hct
      have hq0 : 0 ≤ ((completedCount tasks : ℚ) / (tasks.length : ℚ)) * 100 := by
        positivity
      have hq1 : ((completedCount tasks : ℚ) / (tasks.length : ℚ)) * 100 ≤ 100 := by
        have hdiv : (completedCount tasks : ℚ) / (tasks.length : ℚ) ≤ 1 :=
          (div_le_one ht).mpr hcq
        nlinarith
      unfold successRate
      rw [if_pos h, round_eq]
      constructor
      · exact Int.le_floor.mpr (by push_cast; linarith)
      · rw [Int.floor_le_iff]
        push_cast
        linarith
    · unfold successRate
      rw [if_neg h]
      norm_num

theorem successRate_guarded_and_bounded_witness :
    0 < [mkTask "a" "completed", mkTask "b" "failed"].length ∧
    successRate [mkTask "a" "completed", mkTask "b" "failed"] =
      round ((100 *
        (completedCount [mkTask "a" "completed", mkTask "b" "failed"] : ℚ)) /
        (([mkTask "a" "completed", mkTask "b" "failed"] :
          List TaskResponse).length : ℚ)) ∧
    0 ≤ successRate [mkTask "a" "completed", mkTask "b" "failed"] ∧
    successRate [mkTask "a" "completed", mkTask "b" "failed"] ≤ 100 :=
  ⟨by decide,
   (successRate_guarded_and_bounded
      [mkTask "a" "completed", mkTask "b" "failed"]).1 (by decide),
   (successRate_guarded_and_bounded
      [mkTask "a" "completed", mkTask "b" "failed"]).2.2.1,
   (successRate_guarded_and_bounded
      [mkTask "a" "completed", mkTask "b" "failed"]).2.2.2⟩

end MCPAgent

